import Mathlib

set_option autoImplicit false

namespace MovieAPI

/-- Opaque store-assigned identifier, modelled as the value of the store counter
that assigned it. -/
abbrev Id := Nat

/-- A Movie document (src/models/Movie.js, movieSchema): name, director, actors,
imbdrating are required, image is optional, genres is a list of Genre ids. -/
structure Movie where
  mid : Id
  name : String
  director : String
  actors : List String
  imbdrating : String
  image : Option String
  genres : List Id
deriving Repr, DecidableEq

/-- A Genre document (src/models/Genre.js, genreSchema): a required name and a
list of Movie ids (denormalized back-reference). -/
structure Genre where
  gid : Id
  name : String
  movies : List Id
deriving Repr, DecidableEq

/-- The Entity Store state: the two document collections plus the counter from
which fresh ids are assigned. -/
structure Store where
  movies : List Movie
  genres : List Genre
  nextId : Id
deriving Repr, DecidableEq

/-- A JSON-shaped value as it is serialized into the cache by JSON.stringify and
recovered by JSON.parse.  Each constructor is one shape the routes produce. -/
inductive Val where
  | movies (ms : List Movie)
  | pmovie (m : Movie) (gs : List Genre)
  | genres (gs : List Genre)
  | pgenres (l : List (Genre × List Movie))
  | genre (g : Genre)
deriving Repr, DecidableEq

/-- One cache entry: the stored serialized value and the expiration (in seconds)
it was written with. -/
structure Entry where
  value : Val
  ttl : Nat
deriving Repr, DecidableEq

/-- The Cache Store state: an association list from key to entry. -/
abbrev Cache := List (String × Entry)

def Cache.get : Cache → String → Option Entry
  | [], _ => none
  | p :: t, k => if p.1 == k then some p.2 else Cache.get t k

def Cache.setex (c : Cache) (k : String) (ttl : Nat) (v : Val) : Cache :=
  (k, ⟨v, ttl⟩) :: c.filter (fun p => !(p.1 == k))

def Cache.del (c : Cache) (k : String) : Cache :=
  c.filter (fun p => !(p.1 == k))

/-- Mongoose populate of a genre-id list: each id is replaced by the Genre
document it refers to; dangling ids disappear. -/
def populateGenres (s : Store) (ids : List Id) : List Genre :=
  ids.filterMap (fun i => s.genres.find? (fun g => g.gid == i))

/-- Mongoose populate of a movie-id list. -/
def populateMovies (s : Store) (ids : List Id) : List Movie :=
  ids.filterMap (fun i => s.movies.find? (fun m => m.mid == i))

/-- The request body of POST /movies and PUT /movies/:id, as destructured by
the handlers. -/
structure MovieBody where
  name : String
  director : String
  actors : List String
  imbdrating : String
  image : Option String
  genres : List Id
deriving Repr, DecidableEq

/-- The request body of POST /genres.  Besides name, a client may supply a
movies list or arbitrary further fields; the handler destructures only name. -/
structure GenreBody where
  name : String
  movies : List Id
  extra : List (String × String)
deriving Repr, DecidableEq

/-- The movie document built by Movie.create / findByIdAndUpdate from a body. -/
def mkMovie (i : Id) (b : MovieBody) : Movie :=
  ⟨i, b.name, b.director, b.actors, b.imbdrating, b.image, b.genres⟩

def Store.movieFindById (s : Store) (i : Id) : Option Movie :=
  s.movies.find? (fun m => m.mid == i)

def Store.genreFindById (s : Store) (i : Id) : Option Genre :=
  s.genres.find? (fun g => g.gid == i)

def Store.movieCreate (s : Store) (b : MovieBody) : Movie × Store :=
  (mkMovie s.nextId b,
   { s with movies := s.movies ++ [mkMovie s.nextId b], nextId := s.nextId + 1 })

def Store.movieUpdate (s : Store) (i : Id) (b : MovieBody) : Option (Movie × Store) :=
  match s.movies.find? (fun m => m.mid == i) with
  | none => none
  | some _ =>
    some (mkMovie i b,
      { s with movies := s.movies.map (fun old => if old.mid == i then mkMovie i b else old) })

def Store.movieDelete (s : Store) (i : Id) : Option (Movie × Store) :=
  match s.movies.find? (fun m => m.mid == i) with
  | none => none
  | some m => some (m, { s with movies := s.movies.filter (fun x => !(x.mid == i)) })

def Store.genreCreate (s : Store) (name : String) : Genre × Store :=
  (⟨s.nextId, name, []⟩,
   { s with genres := s.genres ++ [⟨s.nextId, name, []⟩], nextId := s.nextId + 1 })

def Store.genreDelete (s : Store) (i : Id) : Option (Genre × Store) :=
  match s.genres.find? (fun g => g.gid == i) with
  | none => none
  | some g => some (g, { s with genres := s.genres.filter (fun x => !(x.gid == i)) })

/-- Genre.updateMany with filter id-in-ids and a push of m onto movies, as in
POST /movies and PUT /movies/:id. -/
def Store.genreUpdateManyPush (s : Store) (ids : List Id) (m : Id) : Store :=
  { s with genres := s.genres.map (fun g =>
      if ids.contains g.gid then { g with movies := g.movies ++ [m] } else g) }

/-- The fault schedule of one request: which Entity Store / Cache Store calls
throw (store unreachable, validation rejection, cache unreachable).  A thrown
call has no effect on the corresponding state. -/
structure Faults where
  storeFind : Bool
  storeFindById : Bool
  storeCreate : Bool
  storeUpdate : Bool
  storeDelete : Bool
  storeUpdateMany : Bool
  cacheGet : Bool
  cacheSetex : Bool
  cacheDel : Bool
deriving Repr, DecidableEq

/-- The fault-free schedule. -/
def noFaults : Faults := ⟨false, false, false, false, false, false, false, false, false⟩

/-- An HTTP response as produced by the handlers. -/
inductive Response where
  | json (v : Val)
  | jsonMovie (m : Movie)
  | createdMovie (m : Movie)
  | createdGenre (g : Genre)
  | okMessage (s : String)
  | notFound (e : String)
  | badRequest (e : String)
  | serverError (e : String)
deriving Repr, DecidableEq

/-- Result of one handler invocation: the response, the resulting Entity Store
and Cache Store states, and the Entity Store calls attempted, in order. -/
structure Out where
  resp : Response
  store : Store
  cache : Cache
  ops : List String
deriving Repr, DecidableEq

def movieKey (i : Id) : String := "movie:" ++ toString i

def genreKey (i : Id) : String := "genre:" ++ toString i

def genreMoviesKey (i : Id) : String := "genre:" ++ toString i ++ ":movies"

/-- GET /movies (src/routes/movies.js lines 74-91). -/
def getMovies (f : Faults) (s : Store) (c : Cache) : Out :=
  if f.cacheGet then ⟨.serverError "Internal Server Error", s, c, []⟩
  else
    match Cache.get c "movies:all" with
    | some e => ⟨.json e.value, s, c, []⟩
    | none =>
      if f.storeFind then ⟨.serverError "Internal Server Error", s, c, ["Movie.find"]⟩
      else if f.cacheSetex then ⟨.serverError "Internal Server Error", s, c, ["Movie.find"]⟩
      else ⟨.json (.movies s.movies), s,
            Cache.setex c "movies:all" 3600 (.movies s.movies), ["Movie.find"]⟩

/-- GET /movies/:id (src/routes/movies.js lines 116-144). -/
def getMovieById (f : Faults) (s : Store) (c : Cache) (i : Id) : Out :=
  if f.cacheGet then ⟨.serverError "Internal Server Error", s, c, []⟩
  else
    match Cache.get c (movieKey i) with
    | some e => ⟨.json e.value, s, c, []⟩
    | none =>
      if f.storeFindById then
        ⟨.serverError "Internal Server Error", s, c, ["Movie.findById"]⟩
      else
        match Store.movieFindById s i with
        | none => ⟨.notFound "Movie not found", s, c, ["Movie.findById"]⟩
        | some m =>
          if f.cacheSetex then
            ⟨.serverError "Internal Server Error", s, c, ["Movie.findById"]⟩
          else
            ⟨.json (.pmovie m (populateGenres s m.genres)), s,
             Cache.setex c (movieKey i) 3600 (.pmovie m (populateGenres s m.genres)),
             ["Movie.findById"]⟩

/-- POST /movies (src/routes/movies.js lines 168-193): create, fan out the new
id to the referenced genres, clear movies:all; any thrown error lands in the
catch branch and is answered with 400 Invalid data. -/
def postMovies (f : Faults) (s : Store) (c : Cache) (b : MovieBody) : Out :=
  if f.storeCreate then ⟨.badRequest "Invalid data", s, c, ["Movie.create"]⟩
  else
    let ms := Store.movieCreate s b
    if f.storeUpdateMany then
      ⟨.badRequest "Invalid data", ms.2, c, ["Movie.create", "Genre.updateMany"]⟩
    else
      let s2 := Store.genreUpdateManyPush ms.2 b.genres ms.1.mid
      if f.cacheDel then
        ⟨.badRequest "Invalid data", s2, c, ["Movie.create", "Genre.updateMany"]⟩
      else
        ⟨.createdMovie ms.1, s2, Cache.del c "movies:all",
         ["Movie.create", "Genre.updateMany"]⟩

/-- PUT /movies/:id (src/routes/movies.js lines 226-260). -/
def putMovie (f : Faults) (s : Store) (c : Cache) (i : Id) (b : MovieBody) : Out :=
  if f.storeUpdate then
    ⟨.serverError "Internal Server Error", s, c, ["Movie.findByIdAndUpdate"]⟩
  else
    match Store.movieUpdate s i b with
    | none => ⟨.notFound "Movie not found", s, c, ["Movie.findByIdAndUpdate"]⟩
    | some ms =>
      if f.storeUpdateMany then
        ⟨.serverError "Internal Server Error", ms.2, c,
         ["Movie.findByIdAndUpdate", "Genre.updateMany"]⟩
      else
        let s2 := Store.genreUpdateManyPush ms.2 b.genres ms.1.mid
        if f.cacheDel then
          ⟨.serverError "Internal Server Error", s2, c,
           ["Movie.findByIdAndUpdate", "Genre.updateMany"]⟩
        else
          ⟨.jsonMovie ms.1, s2, Cache.del c "movies:all",
           ["Movie.findByIdAndUpdate", "Genre.updateMany"]⟩

/-- DELETE /movies/:id (src/routes/movies.js lines 282-298). -/
def deleteMovie (f : Faults) (s : Store) (c : Cache) (i : Id) : Out :=
  if f.storeDelete then
    ⟨.serverError "Internal Server Error", s, c, ["Movie.findByIdAndDelete"]⟩
  else
    match Store.movieDelete s i with
    | none => ⟨.notFound "Movie not found", s, c, ["Movie.findByIdAndDelete"]⟩
    | some ms =>
      if f.cacheDel then
        ⟨.serverError "Internal Server Error", ms.2, c, ["Movie.findByIdAndDelete"]⟩
      else
        ⟨.okMessage "Movie deleted", ms.2, Cache.del c "movies:all",
         ["Movie.findByIdAndDelete"]⟩

/-- GET /genres (src/routes/genres.js lines 64-87). -/
def getGenres (f : Faults) (s : Store) (c : Cache) : Out :=
  if f.cacheGet then ⟨.serverError "Internal Server Error", s, c, []⟩
  else
    match Cache.get c "genres:all" with
    | some e => ⟨.json e.value, s, c, []⟩
    | none =>
      if f.storeFind then ⟨.serverError "Internal Server Error", s, c, ["Genre.find"]⟩
      else if f.cacheSetex then ⟨.serverError "Internal Server Error", s, c, ["Genre.find"]⟩
      else ⟨.json (.genres s.genres), s,
            Cache.setex c "genres:all" 3600 (.genres s.genres), ["Genre.find"]⟩

/-- GET /genres-movies (src/routes/genres.js lines 107-130). -/
def getGenresMovies (f : Faults) (s : Store) (c : Cache) : Out :=
  if f.cacheGet then ⟨.serverError "Internal Server Error", s, c, []⟩
  else
    match Cache.get c "genres:all-with-movies" with
    | some e => ⟨.json e.value, s, c, []⟩
    | none =>
      if f.storeFind then ⟨.serverError "Internal Server Error", s, c, ["Genre.find"]⟩
      else if f.cacheSetex then ⟨.serverError "Internal Server Error", s, c, ["Genre.find"]⟩
      else
        ⟨.json (.pgenres (s.genres.map (fun g => (g, populateMovies s g.movies)))), s,
         Cache.setex c "genres:all-with-movies" 3600
           (.pgenres (s.genres.map (fun g => (g, populateMovies s g.movies)))),
         ["Genre.find"]⟩

/-- GET /genres/:genreId/movies (src/routes/genres.js lines 157-188). -/
def getGenreMovies (f : Faults) (s : Store) (c : Cache) (i : Id) : Out :=
  if f.cacheGet then ⟨.serverError "Internal Server Error", s, c, []⟩
  else
    match Cache.get c (genreMoviesKey i) with
    | some e => ⟨.json e.value, s, c, []⟩
    | none =>
      if f.storeFindById then
        ⟨.serverError "Internal Server Error", s, c, ["Genre.findById"]⟩
      else
        match Store.genreFindById s i with
        | none => ⟨.notFound "Genre not found", s, c, ["Genre.findById"]⟩
        | some g =>
          if f.cacheSetex then
            ⟨.serverError "Internal Server Error", s, c, ["Genre.findById"]⟩
          else
            ⟨.json (.movies (populateMovies s g.movies)), s,
             Cache.setex c (genreMoviesKey i) 3600 (.movies (populateMovies s g.movies)),
             ["Genre.findById"]⟩

/-- POST /genres (src/routes/genres.js lines 212-227): destructures only name,
creates the genre, caches it under its single-entity key; any thrown error is
answered with 400 Invalid data. -/
def postGenres (f : Faults) (s : Store) (c : Cache) (b : GenreBody) : Out :=
  if f.storeCreate then ⟨.badRequest "Invalid data", s, c, ["Genre.create"]⟩
  else
    let gs := Store.genreCreate s b.name
    if f.cacheSetex then ⟨.badRequest "Invalid data", gs.2, c, ["Genre.create"]⟩
    else
      ⟨.createdGenre gs.1, gs.2,
       Cache.setex c (genreKey gs.1.gid) 3600 (.genre gs.1), ["Genre.create"]⟩

/-- DELETE /genres/:genreId (src/routes/genres.js lines 249-266). -/
def deleteGenre (f : Faults) (s : Store) (c : Cache) (i : Id) : Out :=
  if f.storeDelete then
    ⟨.serverError "Internal Server Error", s, c, ["Genre.findByIdAndDelete"]⟩
  else
    match Store.genreDelete s i with
    | none => ⟨.notFound "Genre not found", s, c, ["Genre.findByIdAndDelete"]⟩
    | some gs =>
      if f.cacheDel then
        ⟨.serverError "Internal Server Error", gs.2, c, ["Genre.findByIdAndDelete"]⟩
      else
        ⟨.okMessage "Genre deleted", gs.2, Cache.del c (genreKey i),
         ["Genre.findByIdAndDelete"]⟩

/-- HTTP method of a route declaration. -/
inductive Method where
  | get | post | put | delete
deriving Repr, DecidableEq, BEq

/-- One segment of a route pattern: a literal or a named parameter. -/
inductive Seg where
  | lit (s : String)
  | param (n : String)
deriving Repr, DecidableEq

def segMatches : Seg → String → Bool
  | .lit s, t => s == t
  | .param _, _ => true

/-- Express route matching on the path split into segments. -/
def routeMatches (m : Method) (path : List String) (r : Method × List Seg) : Bool :=
  r.1 == m && (r.2.length == path.length &&
    (List.zip r.2 path).all (fun p => segMatches p.1 p.2))

/-- The routes declared by src/routes/movies.js, in declaration order. -/
def moviesRoutes : List (Method × List Seg) :=
  [(.get, [.lit "movies"]),
   (.get, [.lit "movies", .param "id"]),
   (.post, [.lit "movies"]),
   (.put, [.lit "movies", .param "id"]),
   (.delete, [.lit "movies", .param "id"])]

/-- The routes declared by src/routes/genres.js, in declaration order. -/
def genresRoutes : List (Method × List Seg) :=
  [(.get, [.lit "genres"]),
   (.get, [.lit "genres-movies"]),
   (.get, [.lit "genres", .param "genreId", .lit "movies"]),
   (.post, [.lit "genres"]),
   (.delete, [.lit "genres", .param "genreId"])]

/-- All routes mounted by the application, movies router first (index.js). -/
def appRoutes : List (Method × List Seg) := moviesRoutes ++ genresRoutes

/-- Deleting a key removes it: a later lookup of the same key misses. -/
theorem Cache.get_del_self (c : Cache) (k : String) : Cache.get (Cache.del c k) k = none := by
  induction c with
  | nil => rfl
  | cons p t ih =>
    by_cases h : p.1 = k
    · simpa [Cache.del, h] using ih
    · simpa [Cache.del, Cache.get, h] using ih

/-- Deleting a key leaves every other key untouched. -/
theorem Cache.get_del_ne (c : Cache) (k q : String) (h : q ≠ k) :
    Cache.get (Cache.del c k) q = Cache.get c q := by
  have h3 : ¬ (k = q) := fun hq => h hq.symm
  induction c with
  | nil => rfl
  | cons p t ih =>
    by_cases h1 : p.1 = k
    · simpa [Cache.del, Cache.get, List.filter_cons, h1, h3] using ih
    · by_cases h2 : p.1 = q
      · simp [Cache.del, Cache.get, List.filter_cons, h1, h2, h]
      · simpa [Cache.del, Cache.get, List.filter_cons, h1, h2] using ih

/-- A setex write is immediately readable under its key. -/
theorem Cache.get_setex_self (c : Cache) (k : String) (ttl : Nat) (v : Val) :
    Cache.get (Cache.setex c k ttl v) k = some ⟨v, ttl⟩ := by
  simp [Cache.setex, Cache.get]

/-- A setex write leaves every other key untouched. -/
theorem Cache.get_setex_ne (c : Cache) (k q : String) (ttl : Nat) (v : Val) (h : q ≠ k) :
    Cache.get (Cache.setex c k ttl v) q = Cache.get c q := by
  have h0 : ¬ (k = q) := fun hq => h hq.symm
  simp only [Cache.setex, Cache.get, h0, if_false, beq_iff_eq]
  exact Cache.get_del_ne c k q h

/-- No string continues "movie:" into "movies:all": the two differ at the sixth
character, so the single-movie keys can never collide with the collection key. -/
theorem movie_key_ne_all (t : String) : "movie:" ++ t ≠ "movies:all" := by
  intro h
  have hd : "movie:".data ++ t.data = "movies:all".data := by
    have h2 := congrArg String.data h
    rwa [String.data_append] at h2
  have h5 : ("movie:".data ++ t.data).get? 5 = some ':' := by
    rw [List.get?_append (by decide)]
    decide
  rw [hd] at h5
  exact absurd h5 (by decide)

/-- No string continues "genre:" into "genres:all". -/
theorem genre_key_ne_all (t : String) : "genre:" ++ t ≠ "genres:all" := by
  intro h
  have hd : "genre:".data ++ t.data = "genres:all".data := by
    have h2 := congrArg String.data h
    rwa [String.data_append] at h2
  have h5 : ("genre:".data ++ t.data).get? 5 = some ':' := by
    rw [List.get?_append (by decide)]
    decide
  rw [hd] at h5
  exact absurd h5 (by decide)

/-- No string continues "genre:" into "genres:all-with-movies". -/
theorem genre_key_ne_all_movies (t : String) : "genre:" ++ t ≠ "genres:all-with-movies" := by
  intro h
  have hd : "genre:".data ++ t.data = "genres:all-with-movies".data := by
    have h2 := congrArg String.data h
    rwa [String.data_append] at h2
  have h5 : ("genre:".data ++ t.data).get? 5 = some ':' := by
    rw [List.get?_append (by decide)]
    decide
  rw [hd] at h5
  exact absurd h5 (by decide)

/-- A sample genre referencing the sample movie. -/
def g1 : Genre := ⟨1, "Drama", [2]⟩

/-- A sample movie referencing the sample genre. -/
def m2 : Movie := ⟨2, "Heat", "Mann", ["Pacino", "Kilmer"], "8.3", none, [1]⟩

/-- A sample store holding m2 and g1, next id 3. -/
def s0 : Store := ⟨[m2], [g1], 3⟩

/-- A sample create/update body referencing genre 1. -/
def b3 : MovieBody := ⟨"Ronin", "Frankenheimer", ["Rob"], "7.2", none, [1]⟩

/-- A sample body referencing no genre. -/
def bN : MovieBody := ⟨"Solo", "Kasdan", ["Alden"], "6.9", none, []⟩

def eA : Entry := ⟨.movies [m2], 3600⟩

def eB : Entry := ⟨.pmovie m2 [g1], 3600⟩

def eC : Entry := ⟨.genres [g1], 3600⟩

def eD : Entry := ⟨.pgenres [(g1, [m2])], 3600⟩

def eE : Entry := ⟨.movies [m2], 3600⟩

/-- A cache populated for every read endpoint of the sample store. -/
def cHit : Cache :=
  [("movies:all", eA), (movieKey 2, eB), ("genres:all", eC),
   ("genres:all-with-movies", eD), (genreMoviesKey 1, eE)]

/-- Claim C1: every read endpoint (GET /movies, GET /movies/:id, GET /genres,
GET /genres-movies, GET /genres/:genreId/movies) follows the read-through
protocol: on a cache hit it returns the deserialized cached value with no
Entity Store access and no state change; on a cache miss it queries the store,
writes the result under the endpoint key with a 3600-second expiration, and
returns exactly the value it cached. -/
theorem C1_read_through_protocol (s : Store) (c : Cache) (i : Id) :
    (∀ e, Cache.get c "movies:all" = some e →
      getMovies noFaults s c = ⟨.json e.value, s, c, []⟩) ∧
    (Cache.get c "movies:all" = none →
      getMovies noFaults s c =
        ⟨.json (.movies s.movies), s,
         Cache.setex c "movies:all" 3600 (.movies s.movies), ["Movie.find"]⟩) ∧
    (∀ e, Cache.get c (movieKey i) = some e →
      getMovieById noFaults s c i = ⟨.json e.value, s, c, []⟩) ∧
    (∀ m, Cache.get c (movieKey i) = none → Store.movieFindById s i = some m →
      getMovieById noFaults s c i =
        ⟨.json (.pmovie m (populateGenres s m.genres)), s,
         Cache.setex c (movieKey i) 3600 (.pmovie m (populateGenres s m.genres)),
         ["Movie.findById"]⟩) ∧
    (∀ e, Cache.get c "genres:all" = some e →
      getGenres noFaults s c = ⟨.json e.value, s, c, []⟩) ∧
    (Cache.get c "genres:all" = none →
      getGenres noFaults s c =
        ⟨.json (.genres s.genres), s,
         Cache.setex c "genres:all" 3600 (.genres s.genres), ["Genre.find"]⟩) ∧
    (∀ e, Cache.get c "genres:all-with-movies" = some e →
      getGenresMovies noFaults s c = ⟨.json e.value, s, c, []⟩) ∧
    (Cache.get c "genres:all-with-movies" = none →
      getGenresMovies noFaults s c =
        ⟨.json (.pgenres (s.genres.map (fun g => (g, populateMovies s g.movies)))), s,
         Cache.setex c "genres:all-with-movies" 3600
           (.pgenres (s.genres.map (fun g => (g, populateMovies s g.movies)))),
         ["Genre.find"]⟩) ∧
    (∀ e, Cache.get c (genreMoviesKey i) = some e →
      getGenreMovies noFaults s c i = ⟨.json e.value, s, c, []⟩) ∧
    (∀ g, Cache.get c (genreMoviesKey i) = none → Store.genreFindById s i = some g →
      getGenreMovies noFaults s c i =
        ⟨.json (.movies (populateMovies s g.movies)), s,
         Cache.setex c (genreMoviesKey i) 3600 (.movies (populateMovies s g.movies)),
         ["Genre.findById"]⟩) := by
  refine ⟨fun e h => by simp [getMovies, noFaults, h],
          fun h => by simp [getMovies, noFaults, h],
          fun e h => by simp [getMovieById, noFaults, h],
          fun m h hm => by simp [getMovieById, noFaults, h, hm],
          fun e h => by simp [getGenres, noFaults, h],
          fun h => by simp [getGenres, noFaults, h],
          fun e h => by simp [getGenresMovies, noFaults, h],
          fun h => by simp [getGenresMovies, noFaults, h],
          fun e h => by simp [getGenreMovies, noFaults, h],
          fun g h hg => by simp [getGenreMovies, noFaults, h, hg]⟩

/-- Witness for C1: each endpoint evaluated at the sample store, hitting on the
populated cache and missing on the empty cache. -/
theorem C1_read_through_protocol_wit :
    getMovies noFaults s0 cHit = ⟨.json eA.value, s0, cHit, []⟩ ∧
    getMovies noFaults s0 [] =
      ⟨.json (.movies [m2]), s0,
       Cache.setex [] "movies:all" 3600 (.movies [m2]), ["Movie.find"]⟩ ∧
    getMovieById noFaults s0 cHit 2 = ⟨.json eB.value, s0, cHit, []⟩ ∧
    getMovieById noFaults s0 [] 2 =
      ⟨.json (.pmovie m2 [g1]), s0,
       Cache.setex [] (movieKey 2) 3600 (.pmovie m2 [g1]), ["Movie.findById"]⟩ ∧
    getGenres noFaults s0 cHit = ⟨.json eC.value, s0, cHit, []⟩ ∧
    getGenres noFaults s0 [] =
      ⟨.json (.genres [g1]), s0,
       Cache.setex [] "genres:all" 3600 (.genres [g1]), ["Genre.find"]⟩ ∧
    getGenresMovies noFaults s0 cHit = ⟨.json eD.value, s0, cHit, []⟩ ∧
    getGenresMovies noFaults s0 [] =
      ⟨.json (.pgenres [(g1, [m2])]), s0,
       Cache.setex [] "genres:all-with-movies" 3600 (.pgenres [(g1, [m2])]), ["Genre.find"]⟩ ∧
    getGenreMovies noFaults s0 cHit 1 = ⟨.json eE.value, s0, cHit, []⟩ ∧
    getGenreMovies noFaults s0 [] 1 =
      ⟨.json (.movies [m2]), s0,
       Cache.setex [] (genreMoviesKey 1) 3600 (.movies [m2]), ["Genre.findById"]⟩ := by
  obtain ⟨h1, h2, h3, h4, -, -, -, -, -, -⟩ := C1_read_through_protocol s0 cHit 2
  obtain ⟨-, -, -, -, g5, g6, g7, g8, g9, g10⟩ := C1_read_through_protocol s0 cHit 1
  obtain ⟨-, k2, -, k4, -, k6, -, k8, -, -⟩ := C1_read_through_protocol s0 [] 2
  obtain ⟨-, -, -, -, -, -, -, -, -, l10⟩ := C1_read_through_protocol s0 [] 1
  exact ⟨h1 eA rfl, k2 rfl, h3 eB rfl, k4 m2 rfl rfl, g5 eC rfl, k6 rfl,
         g7 eD rfl, k8 rfl, g9 eE rfl, l10 g1 rfl rfl⟩

/-- Claim C6: when a movie is created via POST /movies or updated via
PUT /movies/:id with a non-empty genre-id list, the new movie id is appended
to the movies list of every referenced Genre record, without deduplication,
and genres not referenced keep their movies list unchanged. -/
theorem C6_genre_fanout (s : Store) (c : Cache) (b : MovieBody) (i : Id) (g : Genre) :
    (g ∈ s.genres → g.gid ∈ b.genres →
      ({ g with movies := g.movies ++ [s.nextId] } : Genre)
        ∈ (postMovies noFaults s c b).store.genres) ∧
    (g ∈ s.genres → g.gid ∉ b.genres →
      g ∈ (postMovies noFaults s c b).store.genres) ∧
    (∀ p, Store.movieUpdate s i b = some p →
      (g ∈ s.genres → g.gid ∈ b.genres →
        ({ g with movies := g.movies ++ [i] } : Genre)
          ∈ (putMovie noFaults s c i b).store.genres) ∧
      (g ∈ s.genres → g.gid ∉ b.genres →
        g ∈ (putMovie noFaults s c i b).store.genres)) := by
  refine ⟨?_, ?_, ?_⟩
  · intro hg hb
    simp only [postMovies, noFaults, Store.movieCreate, Store.genreUpdateManyPush, mkMovie,
      Bool.false_eq_true, if_false]
    exact List.mem_map.mpr ⟨g, hg, by simp [hb]⟩
  · intro hg hb
    simp only [postMovies, noFaults, Store.movieCreate, Store.genreUpdateManyPush, mkMovie,
      Bool.false_eq_true, if_false]
    exact List.mem_map.mpr ⟨g, hg, by simp [hb]⟩
  · intro p hp
    obtain ⟨m0, hm0⟩ : ∃ m0, s.movies.find? (fun m => m.mid == i) = some m0 := by
      rcases hfind : s.movies.find? (fun m => m.mid == i) with - | m0
      · simp [Store.movieUpdate, hfind] at hp
      · exact ⟨m0, hfind⟩
    constructor
    · intro hg hb
      simp only [putMovie, noFaults, Store.movieUpdate, hm0, Store.genreUpdateManyPush,
        Bool.false_eq_true, if_false, mkMovie]
      exact List.mem_map.mpr ⟨g, hg, by simp [hb]⟩
    · intro hg hb
      simp only [putMovie, noFaults, Store.movieUpdate, hm0, Store.genreUpdateManyPush,
        Bool.false_eq_true, if_false, mkMovie]
      exact List.mem_map.mpr ⟨g, hg, by simp [hb]⟩

/-- Witness for C6: creating b3 (which references genre 1) appends the new id 3
to g1; creating bN (no references) leaves g1 unchanged; updating movie 2 with
b3 appends 2 to the list [2] again, yielding the duplicate [2, 2]. -/
theorem C6_genre_fanout_wit :
    ({ g1 with movies := [2, 3] } : Genre) ∈ (postMovies noFaults s0 [] b3).store.genres ∧
    g1 ∈ (postMovies noFaults s0 [] bN).store.genres ∧
    ({ g1 with movies := [2, 2] } : Genre) ∈ (putMovie noFaults s0 [] 2 b3).store.genres := by
  have h := C6_genre_fanout s0 [] b3 2 g1
  have h2 := C6_genre_fanout s0 [] bN 2 g1
  exact ⟨h.1 (by decide) (by decide),
         h2.2.1 (by decide) (by decide),
         ((h.2.2 (mkMovie 2 b3, { s0 with movies := [mkMovie 2 b3] }) (by decide)).1
            (by decide) (by decide))⟩

/-- Claim C10: POST /genres destructures only the name field of its request
body: any other supplied fields (a client movies list included) are ignored,
the created Genre record has an empty movies list, and the value cached under
its key genre:(id) is exactly the serialization of that created record. -/
theorem C10_post_genres_only_name (s : Store) (c : Cache) (b : GenreBody) :
    postGenres noFaults s c b =
      ⟨.createdGenre ⟨s.nextId, b.name, []⟩,
       { s with genres := s.genres ++ [⟨s.nextId, b.name, []⟩], nextId := s.nextId + 1 },
       Cache.setex c (genreKey s.nextId) 3600 (.genre ⟨s.nextId, b.name, []⟩),
       ["Genre.create"]⟩ ∧
    postGenres noFaults s c b = postGenres noFaults s c ⟨b.name, [], []⟩ := by
  exact ⟨by simp [postGenres, noFaults, Store.genreCreate], rfl⟩

/-- The update body of the C2 scenario. -/
def b4 : MovieBody := ⟨"Heat 2", "Mann", ["Pacino"], "9.9", none, [1]⟩

/-- The cache after GET /movies/:id 2 populated movie:2 from the pre-write
state s0. -/
def cMv : Cache := (getMovieById noFaults s0 [] 2).cache

/-- The state after PUT /movies/:id 2 with b4 on that cache. -/
def oPut : Out := putMovie noFaults s0 cMv 2 b4

/-- The state after a further DELETE /movies/:id 2. -/
def oDel : Out := deleteMovie noFaults oPut.store oPut.cache 2

/-- Counterexample to claim C2 as stated: a successful PUT /movies/:id (and a
successful DELETE /movies/:id) does not invalidate movie:2, so the next
GET /movies/:id serves the pre-write snapshot of m2 although the store now
holds the updated record (resp. no record at all). -/
theorem C2_counterexample :
    oPut.resp = .jsonMovie (mkMovie 2 b4) ∧
    Store.movieFindById oPut.store 2 = some (mkMovie 2 b4) ∧
    (getMovieById noFaults oPut.store oPut.cache 2).resp = .json (.pmovie m2 [g1]) ∧
    m2 ≠ mkMovie 2 b4 ∧
    oDel.resp = .okMessage "Movie deleted" ∧
    Store.movieFindById oDel.store 2 = none ∧
    (getMovieById noFaults oDel.store oDel.cache 2).resp = .json (.pmovie m2 [g1]) := by
  decide

/-- Claim C2 (amended): PUT /movies/:id and DELETE /movies/:id invalidate only
the collection key movies:all; the single-entity key movie:(id) is not
invalidated, so a cache entry under it survives both writes unchanged and the
pre-write snapshot keeps being served until TTL expiry. -/
theorem C2_amended (s : Store) (c : Cache) (i : Id) (b : MovieBody) :
    (∀ p, Store.movieUpdate s i b = some p →
      (putMovie noFaults s c i b).cache = Cache.del c "movies:all") ∧
    (∀ p, Store.movieDelete s i = some p →
      (deleteMovie noFaults s c i).cache = Cache.del c "movies:all") ∧
    (∀ e, Cache.get c (movieKey i) = some e →
      Cache.get (putMovie noFaults s c i b).cache (movieKey i) = some e ∧
      Cache.get (deleteMovie noFaults s c i).cache (movieKey i) = some e) := by
  have hne : movieKey i ≠ "movies:all" := movie_key_ne_all (toString i)
  refine ⟨fun p hp => by simp [putMovie, noFaults, hp], fun p hp => by simp [deleteMovie, noFaults, hp], ?_⟩
  intro e he
  constructor
  · rcases hu : Store.movieUpdate s i b with - | p
    · simpa [putMovie, noFaults, hu] using he
    · rw [show (putMovie noFaults s c i b).cache = Cache.del c "movies:all" by
          simp [putMovie, noFaults, hu]]
      rw [Cache.get_del_ne c "movies:all" (movieKey i) hne]
      exact he
  · rcases hd : Store.movieDelete s i with - | p
    · simpa [deleteMovie, noFaults, hd] using he
    · rw [show (deleteMovie noFaults s c i).cache = Cache.del c "movies:all" by
          simp [deleteMovie, noFaults, hd]]
      rw [Cache.get_del_ne c "movies:all" (movieKey i) hne]
      exact he

/-- A cache holding both the collection key and the single-movie key. -/
def cPD : Cache := [("movies:all", eA), (movieKey 2, eB)]

/-- Witness for C2 (amended) at the sample store and cache cPD. -/
theorem C2_amended_wit :
    (putMovie noFaults s0 cPD 2 b4).cache = Cache.del cPD "movies:all" ∧
    (deleteMovie noFaults s0 cPD 2).cache = Cache.del cPD "movies:all" ∧
    Cache.get (putMovie noFaults s0 cPD 2 b4).cache (movieKey 2) = some eB ∧
    Cache.get (deleteMovie noFaults s0 cPD 2).cache (movieKey 2) = some eB := by
  have h := C2_amended s0 cPD 2 b4
  exact ⟨h.1 (mkMovie 2 b4, { s0 with movies := [mkMovie 2 b4] }) (by decide),
         h.2.1 (m2, { s0 with movies := [] }) (by decide),
         (h.2.2 eB (by decide)).1, (h.2.2 eB (by decide)).2⟩

/-- The schedule where only Genre.updateMany throws. -/
def fUM : Faults := { noFaults with storeUpdateMany := true }

/-- A cache holding only the movies:all collection key. -/
def cA : Cache := [("movies:all", eA)]

/-- Counterexample to claim C3 as stated: in a POST /movies where Movie.create
succeeds against the Entity Store but the genre fan-out throws, the handler
answers from its catch branch and movies:all is still cached afterwards. -/
theorem C3_counterexample :
    mkMovie 3 b3 ∈ (postMovies fUM s0 cA b3).store.movies ∧
    (postMovies fUM s0 cA b3).resp = .badRequest "Invalid data" ∧
    Cache.get (postMovies fUM s0 cA b3).cache "movies:all" = some eA := by
  decide

/-- Claim C3 (amended): for every create, update or delete of a Movie whose
handler completes its success path (the store write, the genre fan-out where
present, and the cache delete all succeed), the movies:all key is absent when
the handler responds, and the next GET /movies queries the store again. -/
theorem C3_amended (s : Store) (c : Cache) (b : MovieBody) (i : Id) :
    (Cache.get (postMovies noFaults s c b).cache "movies:all" = none ∧
     (getMovies noFaults (postMovies noFaults s c b).store (postMovies noFaults s c b).cache).ops
       = ["Movie.find"]) ∧
    (∀ p, Store.movieUpdate s i b = some p →
      Cache.get (putMovie noFaults s c i b).cache "movies:all" = none ∧
      (getMovies noFaults (putMovie noFaults s c i b).store (putMovie noFaults s c i b).cache).ops
        = ["Movie.find"]) ∧
    (∀ p, Store.movieDelete s i = some p →
      Cache.get (deleteMovie noFaults s c i).cache "movies:all" = none ∧
      (getMovies noFaults (deleteMovie noFaults s c i).store (deleteMovie noFaults s c i).cache).ops
        = ["Movie.find"]) := by
  have habs : ∀ s2 : Store, ∀ c2 : Cache, Cache.get c2 "movies:all" = none →
      (getMovies noFaults s2 c2).ops = ["Movie.find"] := fun s2 c2 h => by
    simp [getMovies, noFaults, h]
  have hpost : (postMovies noFaults s c b).cache = Cache.del c "movies:all" := by
    simp [postMovies, noFaults]
  refine ⟨⟨?_, ?_⟩, fun p hp => ?_, fun p hp => ?_⟩
  · rw [hpost]; exact Cache.get_del_self c "movies:all"
  · exact habs _ _ (by rw [hpost]; exact Cache.get_del_self c "movies:all")
  · have hput : (putMovie noFaults s c i b).cache = Cache.del c "movies:all" := by
      simp [putMovie, noFaults, hp]
    exact ⟨by rw [hput]; exact Cache.get_del_self c "movies:all",
           habs _ _ (by rw [hput]; exact Cache.get_del_self c "movies:all")⟩
  · have hdel : (deleteMovie noFaults s c i).cache = Cache.del c "movies:all" := by
      simp [deleteMovie, noFaults, hp]
    exact ⟨by rw [hdel]; exact Cache.get_del_self c "movies:all",
           habs _ _ (by rw [hdel]; exact Cache.get_del_self c "movies:all")⟩

/-- Witness for C3 (amended) at the sample store and a populated cache. -/
theorem C3_amended_wit :
    Cache.get (postMovies noFaults s0 cA b4).cache "movies:all" = none ∧
    Cache.get (putMovie noFaults s0 cA 2 b4).cache "movies:all" = none ∧
    Cache.get (deleteMovie noFaults s0 cA 2).cache "movies:all" = none := by
  have h := C3_amended s0 cA b4 2
  exact ⟨h.1.1,
         (h.2.1 (mkMovie 2 b4, { s0 with movies := [mkMovie 2 b4] }) (by decide)).1,
         (h.2.2 (m2, { s0 with movies := [] }) (by decide)).1⟩

/-- A cache holding both genre collection keys. -/
def cG : Cache := [("genres:all", eC), ("genres:all-with-movies", eD)]

/-- The body of the C4 genre creation. -/
def gb : GenreBody := ⟨"Horror", [], []⟩

/-- Counterexample to claim C4 as stated: POST /genres and DELETE
/genres/:genreId leave both genres:all and genres:all-with-movies cached
untouched; after the delete the cached collection [g1] is even known-stale,
as the store then holds no genres. -/
theorem C4_counterexample :
    (postGenres noFaults s0 cG gb).resp = .createdGenre ⟨3, "Horror", []⟩ ∧
    Cache.get (postGenres noFaults s0 cG gb).cache "genres:all" = some eC ∧
    Cache.get (postGenres noFaults s0 cG gb).cache "genres:all-with-movies" = some eD ∧
    (deleteGenre noFaults s0 cG 1).resp = .okMessage "Genre deleted" ∧
    Cache.get (deleteGenre noFaults s0 cG 1).cache "genres:all" = some eC ∧
    Cache.get (deleteGenre noFaults s0 cG 1).cache "genres:all-with-movies" = some eD ∧
    (deleteGenre noFaults s0 cG 1).store.genres = [] := by
  decide

/-- Claim C4 (amended): the mutating Genre operations touch only the
single-entity key: POST /genres writes genre:(id) for the new id and DELETE
/genres/:genreId deletes genre:(id); the collection keys genres:all and
genres:all-with-movies are never invalidated by them and survive unchanged. -/
theorem C4_amended (s : Store) (c : Cache) (b : GenreBody) (i : Id) :
    ((postGenres noFaults s c b).cache
       = Cache.setex c (genreKey s.nextId) 3600 (.genre ⟨s.nextId, b.name, []⟩)) ∧
    (∀ p, Store.genreDelete s i = some p →
       (deleteGenre noFaults s c i).cache = Cache.del c (genreKey i)) ∧
    (∀ e, Cache.get c "genres:all" = some e →
       Cache.get (postGenres noFaults s c b).cache "genres:all" = some e ∧
       Cache.get (deleteGenre noFaults s c i).cache "genres:all" = some e) ∧
    (∀ e, Cache.get c "genres:all-with-movies" = some e →
       Cache.get (postGenres noFaults s c b).cache "genres:all-with-movies" = some e ∧
       Cache.get (deleteGenre noFaults s c i).cache "genres:all-with-movies" = some e) := by
  have hpost : (postGenres noFaults s c b).cache
      = Cache.setex c (genreKey s.nextId) 3600 (.genre ⟨s.nextId, b.name, []⟩) := by
    simp [postGenres, noFaults, Store.genreCreate]
  refine ⟨hpost, fun p hp => by simp [deleteGenre, noFaults, hp], ?_, ?_⟩
  · intro e he
    constructor
    · rw [hpost,
        Cache.get_setex_ne c (genreKey s.nextId) "genres:all" 3600 _
          (Ne.symm (genre_key_ne_all (toString s.nextId)))]
      exact he
    · rcases hd : Store.genreDelete s i with - | p
      · simpa [deleteGenre, noFaults, hd] using he
      · rw [show (deleteGenre noFaults s c i).cache = Cache.del c (genreKey i) by
            simp [deleteGenre, noFaults, hd]]
        rw [Cache.get_del_ne c (genreKey i) "genres:all"
          (Ne.symm (genre_key_ne_all (toString i)))]
        exact he
  · intro e he
    constructor
    · rw [hpost,
        Cache.get_setex_ne c (genreKey s.nextId) "genres:all-with-movies" 3600 _
          (Ne.symm (genre_key_ne_all_movies (toString s.nextId)))]
      exact he
    · rcases hd : Store.genreDelete s i with - | p
      · simpa [deleteGenre, noFaults, hd] using he
      · rw [show (deleteGenre noFaults s c i).cache = Cache.del c (genreKey i) by
            simp [deleteGenre, noFaults, hd]]
        rw [Cache.get_del_ne c (genreKey i) "genres:all-with-movies"
          (Ne.symm (genre_key_ne_all_movies (toString i)))]
        exact he

/-- Witness for C4 (amended) at the sample store and the genre-collection
cache. -/
theorem C4_amended_wit :
    (postGenres noFaults s0 cG gb).cache
      = Cache.setex cG (genreKey 3) 3600 (.genre ⟨3, "Horror", []⟩) ∧
    (deleteGenre noFaults s0 cG 1).cache = Cache.del cG (genreKey 1) ∧
    Cache.get (postGenres noFaults s0 cG gb).cache "genres:all" = some eC ∧
    Cache.get (deleteGenre noFaults s0 cG 1).cache "genres:all-with-movies" = some eD := by
  have h := C4_amended s0 cG gb 1
  exact ⟨h.1, h.2.1 (g1, { s0 with genres := [] }) (by decide),
         (h.2.2.1 eC (by decide)).1, (h.2.2.2 eD (by decide)).2⟩

/-- The store after POST /movies with bN on an empty store: one movie, id 0. -/
def sP : Store := (postMovies noFaults ⟨[], [], 0⟩ [] bN).store

/-- The state after GET /movies/:id 0 populated the cache from sP. -/
def oG : Out := getMovieById noFaults sP [] 0

/-- The state after DELETE /movies/:id 0, which leaves movie:0 cached. -/
def oD : Out := deleteMovie noFaults oG.store oG.cache 0

/-- Counterexample to claim C5 as stated: after a create, a cached read and a
delete, id 0 has no matching store record, yet GET /movies/:id 0 answers with
the stale cached snapshot instead of a not-found signal. -/
theorem C5_counterexample :
    Store.movieFindById oD.store 0 = none ∧
    (getMovieById noFaults oD.store oD.cache 0).resp = .json (.pmovie (mkMovie 0 bN) []) ∧
    (getMovieById noFaults oD.store oD.cache 0).resp ≠ .notFound "Movie not found" ∧
    (getMovieById noFaults oD.store oD.cache 0).ops = [] := by
  decide

/-- Claim C5 (amended): for every id with no matching store record and no
cache entry under the endpoint key, GET /movies/:id (and
GET /genres/:genreId/movies) returns a not-found signal and leaves both states
unchanged, so repeated calls keep returning not-found and never transition to
a cached hit; a pre-existing cache entry under the key, however, is served as
a hit regardless of the store. -/
theorem C5_amended (s : Store) (c : Cache) (i : Id) :
    (Cache.get c (movieKey i) = none → Store.movieFindById s i = none →
      getMovieById noFaults s c i = ⟨.notFound "Movie not found", s, c, ["Movie.findById"]⟩) ∧
    (Cache.get c (genreMoviesKey i) = none → Store.genreFindById s i = none →
      getGenreMovies noFaults s c i = ⟨.notFound "Genre not found", s, c, ["Genre.findById"]⟩) := by
  constructor
  · intro h1 h2; simp [getMovieById, noFaults, h1, h2]
  · intro h1 h2; simp [getGenreMovies, noFaults, h1, h2]

/-- Witness for C5 (amended) at the empty store and cache, id 7. -/
theorem C5_amended_wit :
    getMovieById noFaults ⟨[], [], 0⟩ [] 7
      = ⟨.notFound "Movie not found", ⟨[], [], 0⟩, [], ["Movie.findById"]⟩ ∧
    getGenreMovies noFaults ⟨[], [], 0⟩ [] 7
      = ⟨.notFound "Genre not found", ⟨[], [], 0⟩, [], ["Genre.findById"]⟩ := by
  have h := C5_amended ⟨[], [], 0⟩ [] 7
  exact ⟨h.1 rfl rfl, h.2 rfl rfl⟩

/-- The schedule where only the store create call throws. -/
def fCr : Faults := { noFaults with storeCreate := true }

/-- The schedule where every store and cache call throws. -/
def fAll : Faults := ⟨true, true, true, true, true, true, true, true, true⟩

/-- Counterexample to claim C7 as stated: an Entity Store infrastructure
failure during POST /movies or POST /genres is surfaced by the handlers as the
400 invalid-data signal, not as a 500 store-failure signal. -/
theorem C7_counterexample :
    (postMovies fCr s0 [] b3).resp = .badRequest "Invalid data" ∧
    (postGenres fCr s0 [] gb).resp = .badRequest "Invalid data" ∧
    (postMovies fCr s0 [] b3).resp ≠ .serverError "Internal Server Error" := by
  decide

/-- Claim C7 (amended): a 400 response is produced only by the create
endpoints, whose catch branches surface every failure — invalid payload or an
Entity Store / Cache Store infrastructure failure — as 400 and never as 500;
every non-create endpoint surfaces infrastructure failures as the 500 signal
and never as 400. -/
theorem C7_amended (f : Faults) (s : Store) (c : Cache) (i : Id) (b : MovieBody)
    (g2 : GenreBody) (msg : String) :
    ((postMovies f s c b).resp ≠ .serverError msg) ∧
    ((postGenres f s c g2).resp ≠ .serverError msg) ∧
    (f.storeCreate = true → (postMovies f s c b).resp = .badRequest "Invalid data") ∧
    (f.storeUpdateMany = true → (postMovies f s c b).resp = .badRequest "Invalid data") ∧
    (f.cacheDel = true → (postMovies f s c b).resp = .badRequest "Invalid data") ∧
    (f.storeCreate = true → (postGenres f s c g2).resp = .badRequest "Invalid data") ∧
    (f.cacheSetex = true → (postGenres f s c g2).resp = .badRequest "Invalid data") ∧
    ((getMovies f s c).resp ≠ .badRequest msg) ∧
    ((getMovieById f s c i).resp ≠ .badRequest msg) ∧
    ((getGenres f s c).resp ≠ .badRequest msg) ∧
    ((getGenresMovies f s c).resp ≠ .badRequest msg) ∧
    ((getGenreMovies f s c i).resp ≠ .badRequest msg) ∧
    ((putMovie f s c i b).resp ≠ .badRequest msg) ∧
    ((deleteMovie f s c i).resp ≠ .badRequest msg) ∧
    ((deleteGenre f s c i).resp ≠ .badRequest msg) ∧
    (f.cacheGet = true → (getMovies f s c).resp = .serverError "Internal Server Error") ∧
    (f.cacheGet = true → (getMovieById f s c i).resp = .serverError "Internal Server Error") ∧
    (f.cacheGet = true → (getGenres f s c).resp = .serverError "Internal Server Error") ∧
    (f.cacheGet = true → (getGenresMovies f s c).resp = .serverError "Internal Server Error") ∧
    (f.cacheGet = true → (getGenreMovies f s c i).resp = .serverError "Internal Server Error") ∧
    (f.storeUpdate = true → (putMovie f s c i b).resp = .serverError "Internal Server Error") ∧
    (f.storeDelete = true → (deleteMovie f s c i).resp = .serverError "Internal Server Error") ∧
    (f.storeDelete = true → (deleteGenre f s c i).resp = .serverError "Internal Server Error") := by
  refine ⟨?_, ?_, ?_, ?_, ?_, ?_, ?_, ?_, ?_, ?_, ?_, ?_, ?_, ?_, ?_, ?_, ?_, ?_, ?_, ?_,
    ?_, ?_, ?_⟩
  · unfold postMovies
    repeat' split
    all_goals simp
  · unfold postGenres
    repeat' split
    all_goals simp
  · intro h; simp [postMovies, h]
  · intro h; cases hc : f.storeCreate <;> simp [postMovies, h, hc]
  · intro h
    cases hc : f.storeCreate <;> cases hu : f.storeUpdateMany <;>
      simp [postMovies, h, hc, hu]
  · intro h; simp [postGenres, h]
  · intro h; cases hc : f.storeCreate <;> simp [postGenres, h, hc]
  · unfold getMovies
    repeat' split
    all_goals simp
  · unfold getMovieById
    repeat' split
    all_goals simp
  · unfold getGenres
    repeat' split
    all_goals simp
  · unfold getGenresMovies
    repeat' split
    all_goals simp
  · unfold getGenreMovies
    repeat' split
    all_goals simp
  · unfold putMovie
    repeat' split
    all_goals simp
  · unfold deleteMovie
    repeat' split
    all_goals simp
  · unfold deleteGenre
    repeat' split
    all_goals simp
  · intro h; simp [getMovies, h]
  · intro h; simp [getMovieById, h]
  · intro h; simp [getGenres, h]
  · intro h; simp [getGenresMovies, h]
  · intro h; simp [getGenreMovies, h]
  · intro h; simp [putMovie, h]
  · intro h; simp [deleteMovie, h]
  · intro h; simp [deleteGenre, h]

/-- Witness for C7 (amended) under the all-failing schedule. -/
theorem C7_amended_wit :
    (postMovies fAll s0 [] b3).resp = .badRequest "Invalid data" ∧
    (postGenres fAll s0 [] gb).resp = .badRequest "Invalid data" ∧
    (postMovies fAll s0 [] b3).resp ≠ .serverError "boom" ∧
    (getMovies fAll s0 []).resp = .serverError "Internal Server Error" ∧
    (getMovieById fAll s0 [] 2).resp = .serverError "Internal Server Error" ∧
    (getGenres fAll s0 []).resp = .serverError "Internal Server Error" ∧
    (getGenresMovies fAll s0 []).resp = .serverError "Internal Server Error" ∧
    (getGenreMovies fAll s0 [] 1).resp = .serverError "Internal Server Error" ∧
    (putMovie fAll s0 [] 2 b3).resp = .serverError "Internal Server Error" ∧
    (deleteMovie fAll s0 [] 2).resp = .serverError "Internal Server Error" ∧
    (deleteGenre fAll s0 [] 1).resp = .serverError "Internal Server Error" ∧
    (putMovie fAll s0 [] 2 b3).resp ≠ .badRequest "boom" := by
  obtain ⟨q1, q2, q3, q4, q5, q6, q7, q8, q9, q10, q11, q12, q13, q14, q15, q16, q17, q18,
    q19, q20, q21, q22, q23⟩ := C7_amended fAll s0 [] 2 b3 gb "boom"
  exact ⟨q3 rfl, q6 rfl, q1, q16 rfl, q17 rfl, q18 rfl, q19 rfl, q20 rfl, q21 rfl,
         q22 rfl, q23 rfl, q13⟩

/-- find? skips a block in which it finds nothing. -/
theorem find_skip_none {α : Type} (p : α → Bool) (l1 l2 : List α) (h : l1.find? p = none) :
    (l1 ++ l2).find? p = l2.find? p := by
  induction l1 with
  | nil => rfl
  | cons a t ih =>
    cases hpa : p a with
    | true => rw [List.find?_cons_of_pos _ hpa] at h; cases h
    | false =>
      rw [List.find?_cons_of_neg _ (by simp [hpa])] at h
      rw [List.cons_append, List.find?_cons_of_neg _ (by simp [hpa])]
      exact ih h

/-- Counterexample to claim C8 as stated: the scenario requires a
GET /genres/:id step, but no route of the application matches a GET of path
/genres/(id) — only the DELETE route does — so that step cannot return the
created record; the POST itself does answer 201 with the generated id. -/
theorem C8_counterexample :
    (postGenres noFaults ⟨[], [], 0⟩ [] ⟨"Drama", [], []⟩).resp
      = .createdGenre ⟨0, "Drama", []⟩ ∧
    appRoutes.filter (routeMatches .get ["genres", "0"]) = [] ∧
    appRoutes.filter (routeMatches .delete ["genres", "0"])
      = [(.delete, [.lit "genres", .param "genreId"])] := by
  decide

/-- Claim C8 (amended): POST /genres with name Drama returns 201 with the
generated id and the stored and cached record reflect name Drama; there is no
GET /genres/:id route to read it back, but DELETE /genres/:id then returns
200 and removes the record, and a further DELETE /genres/:id (or any store
lookup of that id) finds nothing and yields the 404 signal. -/
theorem C8_amended (s : Store) (c : Cache)
    (hfresh : ∀ g ∈ s.genres, g.gid ≠ s.nextId) :
    appRoutes.filter (routeMatches .get ["genres", toString s.nextId]) = [] ∧
    (postGenres noFaults s c ⟨"Drama", [], []⟩).resp = .createdGenre ⟨s.nextId, "Drama", []⟩ ∧
    Store.genreFindById (postGenres noFaults s c ⟨"Drama", [], []⟩).store s.nextId
      = some ⟨s.nextId, "Drama", []⟩ ∧
    Cache.get (postGenres noFaults s c ⟨"Drama", [], []⟩).cache (genreKey s.nextId)
      = some ⟨.genre ⟨s.nextId, "Drama", []⟩, 3600⟩ ∧
    (deleteGenre noFaults (postGenres noFaults s c ⟨"Drama", [], []⟩).store
        (postGenres noFaults s c ⟨"Drama", [], []⟩).cache s.nextId).resp
      = .okMessage "Genre deleted" ∧
    Store.genreFindById
        (deleteGenre noFaults (postGenres noFaults s c ⟨"Drama", [], []⟩).store
          (postGenres noFaults s c ⟨"Drama", [], []⟩).cache s.nextId).store s.nextId
      = none ∧
    (deleteGenre noFaults
        (deleteGenre noFaults (postGenres noFaults s c ⟨"Drama", [], []⟩).store
          (postGenres noFaults s c ⟨"Drama", [], []⟩).cache s.nextId).store
        (deleteGenre noFaults (postGenres noFaults s c ⟨"Drama", [], []⟩).store
          (postGenres noFaults s c ⟨"Drama", [], []⟩).cache s.nextId).cache s.nextId).resp
      = .notFound "Genre not found" := by
  have hfind : s.genres.find? (fun g => g.gid == s.nextId) = none :=
    List.find?_eq_none.mpr (fun g hg => by simpa using hfresh g hg)
  have hroute : appRoutes.filter (routeMatches .get ["genres", toString s.nextId]) = [] := by
    rw [List.filter_eq_nil]
    intro r hr
    have e1 : (Method.post == Method.get) = false := rfl
    have e2 : (Method.put == Method.get) = false := rfl
    have e3 : (Method.delete == Method.get) = false := rfl
    have e4 : (Method.get == Method.get) = true := rfl
    fin_cases hr <;> simp [routeMatches, segMatches, e1, e2, e3, e4]
  have hpost : (postGenres noFaults s c ⟨"Drama", [], []⟩).store
      = { s with genres := s.genres ++ [⟨s.nextId, "Drama", []⟩], nextId := s.nextId + 1 } := by
    simp [postGenres, noFaults, Store.genreCreate]
  have hpostc : (postGenres noFaults s c ⟨"Drama", [], []⟩).cache
      = Cache.setex c (genreKey s.nextId) 3600 (.genre ⟨s.nextId, "Drama", []⟩) := by
    simp [postGenres, noFaults, Store.genreCreate]
  have hfind2 : (s.genres ++ [(⟨s.nextId, "Drama", []⟩ : Genre)]).find?
      (fun g => g.gid == s.nextId) = some ⟨s.nextId, "Drama", []⟩ := by
    rw [find_skip_none _ _ _ hfind, List.find?_cons_of_pos _ (by simp)]
  have hfilter : (s.genres ++ [(⟨s.nextId, "Drama", []⟩ : Genre)]).filter
      (fun x => !(x.gid == s.nextId)) = s.genres := by
    rw [List.filter_append]
    have h1 : s.genres.filter (fun x => !(x.gid == s.nextId)) = s.genres :=
      List.filter_eq_self.mpr (fun g hg => by simpa using hfresh g hg)
    have h2 : ([(⟨s.nextId, "Drama", []⟩ : Genre)]).filter (fun x => !(x.gid == s.nextId))
        = [] := by simp
    rw [h1, h2, List.append_nil]
  have hdel : deleteGenre noFaults (postGenres noFaults s c ⟨"Drama", [], []⟩).store
      (postGenres noFaults s c ⟨"Drama", [], []⟩).cache s.nextId
      = ⟨.okMessage "Genre deleted",
         { s with genres := s.genres, nextId := s.nextId + 1 },
         Cache.del (postGenres noFaults s c ⟨"Drama", [], []⟩).cache (genreKey s.nextId),
         ["Genre.findByIdAndDelete"]⟩ := by
    rw [hpost]
    simp [deleteGenre, noFaults, Store.genreDelete, hfind2, hfilter]
  refine ⟨hroute, by simp [postGenres, noFaults, Store.genreCreate], ?_, ?_, ?_, ?_, ?_⟩
  · rw [hpost]
    simpa [Store.genreFindById] using hfind2
  · rw [hpostc]
    exact Cache.get_setex_self c (genreKey s.nextId) 3600 (.genre ⟨s.nextId, "Drama", []⟩)
  · rw [hdel]
  · rw [hdel]
    simpa [Store.genreFindById] using hfind
  · rw [hdel]
    simp [deleteGenre, noFaults, Store.genreDelete, hfind]

/-- Witness for C8 (amended) starting from the empty store and cache. -/
theorem C8_amended_wit :
    appRoutes.filter (routeMatches .get ["genres", toString 0]) = [] ∧
    (postGenres noFaults ⟨[], [], 0⟩ [] ⟨"Drama", [], []⟩).resp
      = .createdGenre ⟨0, "Drama", []⟩ ∧
    Store.genreFindById (postGenres noFaults ⟨[], [], 0⟩ [] ⟨"Drama", [], []⟩).store 0
      = some ⟨0, "Drama", []⟩ ∧
    Cache.get (postGenres noFaults ⟨[], [], 0⟩ [] ⟨"Drama", [], []⟩).cache (genreKey 0)
      = some ⟨.genre ⟨0, "Drama", []⟩, 3600⟩ ∧
    (deleteGenre noFaults (postGenres noFaults ⟨[], [], 0⟩ [] ⟨"Drama", [], []⟩).store
        (postGenres noFaults ⟨[], [], 0⟩ [] ⟨"Drama", [], []⟩).cache 0).resp
      = .okMessage "Genre deleted" ∧
    Store.genreFindById
        (deleteGenre noFaults (postGenres noFaults ⟨[], [], 0⟩ [] ⟨"Drama", [], []⟩).store
          (postGenres noFaults ⟨[], [], 0⟩ [] ⟨"Drama", [], []⟩).cache 0).store 0
      = none ∧
    (deleteGenre noFaults
        (deleteGenre noFaults (postGenres noFaults ⟨[], [], 0⟩ [] ⟨"Drama", [], []⟩).store
          (postGenres noFaults ⟨[], [], 0⟩ [] ⟨"Drama", [], []⟩).cache 0).store
        (deleteGenre noFaults (postGenres noFaults ⟨[], [], 0⟩ [] ⟨"Drama", [], []⟩).store
          (postGenres noFaults ⟨[], [], 0⟩ [] ⟨"Drama", [], []⟩).cache 0).cache 0).resp
      = .notFound "Genre not found" := by
  exact C8_amended ⟨[], [], 0⟩ [] (by decide)

/-- Claim C9: in a POST /movies where Movie.create succeeds and the genre
fan-out Genre.updateMany throws, the handler responds 400 invalid-data, the
cache is untouched (movies:all in particular is not deleted), the created
movie is in the store, and the next GET /movies is a hit that serves the
pre-create movies:all snapshot without any store access. -/
theorem C9_fanout_failure (f : Faults) (s : Store) (c : Cache) (b : MovieBody) (e : Entry)
    (hc : f.storeCreate = false) (hu : f.storeUpdateMany = true)
    (he : Cache.get c "movies:all" = some e) :
    (postMovies f s c b).resp = .badRequest "Invalid data" ∧
    (postMovies f s c b).cache = c ∧
    mkMovie s.nextId b ∈ (postMovies f s c b).store.movies ∧
    (postMovies f s c b).store.genres = s.genres ∧
    getMovies noFaults (postMovies f s c b).store (postMovies f s c b).cache
      = ⟨.json e.value, (postMovies f s c b).store, c, []⟩ := by
  have hps : postMovies f s c b
      = ⟨.badRequest "Invalid data", (Store.movieCreate s b).2, c,
         ["Movie.create", "Genre.updateMany"]⟩ := by
    simp [postMovies, hc, hu]
  rw [hps]
  refine ⟨rfl, rfl, ?_, rfl, ?_⟩
  · simp [Store.movieCreate]
  · simp [getMovies, noFaults, he]

/-- Witness for C9: the fan-out-failing schedule at the sample store with a
populated movies:all entry. -/
theorem C9_fanout_failure_wit :
    (postMovies fUM s0 cA b3).resp = .badRequest "Invalid data" ∧
    (postMovies fUM s0 cA b3).cache = cA ∧
    mkMovie 3 b3 ∈ (postMovies fUM s0 cA b3).store.movies ∧
    (postMovies fUM s0 cA b3).store.genres = [g1] ∧
    getMovies noFaults (postMovies fUM s0 cA b3).store (postMovies fUM s0 cA b3).cache
      = ⟨.json eA.value, (postMovies fUM s0 cA b3).store, cA, []⟩ := by
  have h := C9_fanout_failure fUM s0 cA b3 eA rfl rfl rfl
  exact ⟨h.1, h.2.1, h.2.2.1, h.2.2.2.1, h.2.2.2.2⟩

end MovieAPI
